import Mathlib

/-!
Verification development for the RAG_Chatbot news-search frontend.

The embedding covers the two source files:
- `frontend/src/api_calls/newsAPI.jsx` (the News Client: `searchNews`,
  `getNewsCategories`, `addNewsToWorkspace`);
- the `NewsPage` React component (the Search Screen: component state,
  `handleSearch`, `handleAddToWorkspace`, and the add-button render guard).

JavaScript values that may be `undefined`/`null` are embedded as `Option`;
the JavaScript `||` operator on strings (empty string and `undefined` are
falsy) is embedded explicitly.  Async handlers are embedded as big-step
functions from the pre-state and the settled outcome of the single outbound
call to the post-state, paired with the request body actually sent
(`none` when no backend call is issued).
-/

/-- Backend article record; every field is optional, as supplied by the
backend (JS object fields that may be absent). -/
structure Article where
  title : Option String
  description : Option String
  content : Option String
  url : Option String
  source : Option String
  publishedAt : Option String
  deriving Repr, DecidableEq

/-- Active workspace value read from persisted storage; the screen consumes
only its `name` field. -/
structure Workspace where
  name : String
  deriving Repr, DecidableEq

/-- JavaScript `a || b` on two possibly-absent strings: the left value when
it is a non-empty (truthy) string, otherwise the right value. -/
def jsOr (a b : Option String) : Option String :=
  match a with
  | some s => if s = "" then b else some s
  | none => b

/-- JavaScript `a || d` where the result position needs a plain string:
the left value when present and non-empty, otherwise the default. -/
def orElseStr (a : Option String) (d : String) : String :=
  match a with
  | some s => if s = "" then d else s
  | none => d

/-- JavaScript string coercion of a possibly-absent value, as performed by
template-literal interpolation: an absent value renders as "undefined". -/
def jsStr (a : Option String) : String :=
  match a with
  | some s => s
  | none => "undefined"

/-- JavaScript `c || null` on a plain string: `null` when the string is
empty, the string itself otherwise. -/
def jsOrNull (c : String) : Option String :=
  if c = "" then none else some c

/-- JavaScript `s.trim()`: the string with whitespace removed from both
ends, embedded as a structurally recursive function on the character list
so that concrete instances evaluate. -/
def jsTrim (s : String) : String :=
  String.mk (((s.data.dropWhile Char.isWhitespace).reverse.dropWhile
    Char.isWhitespace).reverse)

/-! ## News Client (newsAPI.jsx) -/

/-- Axios-style transport error: `response` holds the data of the server
response when the server replied with an error status (`error.response` in
the source, with its `.data` payload), and `message` is the transport
error message. -/
structure AxiosError (ε : Type) where
  response : Option ε
  message : String
  deriving Repr, DecidableEq

/-- Settled outcome of one outbound `api.post`/`api.get` call: the promise
either resolved with response data or rejected with a transport error. -/
inductive CallOutcome (α ε : Type) where
  | resolved (data : α)
  | rejected (err : AxiosError ε)
  deriving Repr, DecidableEq

/-- Uniform result shape returned by every News Client operation:
`{success: true, data}` or `{success: false, error}`, where the error field
holds either the server-provided payload (`Sum.inl`) or the transport error
message (`Sum.inr`). -/
inductive ApiResult (α ε : Type) where
  | success (data : α)
  | failure (error : ε ⊕ String)
  deriving Repr, DecidableEq

/-- The error field built in every catch block of newsAPI.jsx:
`error.response ? error.response.data : error.message`. -/
def axiosErrPayload {ε : Type} (e : AxiosError ε) : ε ⊕ String :=
  match e.response with
  | some d => Sum.inl d
  | none => Sum.inr e.message

/-- Request body of `searchNews`: `{query, category, language, page_size}`. -/
structure SearchRequest where
  query : String
  category : Option String
  language : String
  page_size : Nat
  deriving Repr, DecidableEq

/-- The body `searchNews` posts to `/news/search`. -/
def searchNewsBody (query : String) (category : Option String)
    (language : String) (pageSize : Nat) : SearchRequest :=
  { query := query, category := category, language := language,
    page_size := pageSize }

/-- `searchNews` from newsAPI.jsx: wraps the settled outcome of the post to
`/news/search` into the uniform result shape; the try/catch makes it total
(it never throws). -/
def searchNews {α ε : Type} (_query : String) (_category : Option String)
    (_language : String) (_pageSize : Nat)
    (outcome : CallOutcome α ε) : ApiResult α ε :=
  match outcome with
  | .resolved d => .success d
  | .rejected e => .failure (axiosErrPayload e)

/-- `getNewsCategories` from newsAPI.jsx: same uniform wrapping of the get
from `/news/categories`. -/
def getNewsCategories {α ε : Type} (outcome : CallOutcome α ε) : ApiResult α ε :=
  match outcome with
  | .resolved d => .success d
  | .rejected e => .failure (axiosErrPayload e)

/-- Payload posted to `/news/add-to-workspace` by the screen. -/
structure AddPayload where
  title : String
  description : String
  content : String
  url : String
  source : String
  publishedAt : String
  workspace_name : String
  deriving Repr, DecidableEq

/-- `addNewsToWorkspace` from newsAPI.jsx: posts the article payload and
wraps the settled outcome into the uniform result shape. -/
def addNewsToWorkspace {α ε : Type} (_articleData : AddPayload)
    (outcome : CallOutcome α ε) : ApiResult α ε :=
  match outcome with
  | .resolved d => .success d
  | .rejected e => .failure (axiosErrPayload e)

/-- Modelled from the spec words (for the refinement claim C3): the uniform
result the spec prescribes for every operation — `{success: true, data}` on
resolution, and on rejection `{success: false, error}` with the
server-provided response payload when present and otherwise the transport
error message. -/
def specUniformResult {α ε : Type} (outcome : CallOutcome α ε) : ApiResult α ε :=
  match outcome with
  | .resolved d => .success d
  | .rejected e =>
    .failure (match e.response with
      | some p => Sum.inl p
      | none => Sum.inr e.message)

/-! ## Search Screen (NewsPage component) -/

/-- Parsed body of a `/news/search` response as the screen consumes it:
`response.data.articles`, which the server may omit (`none`). -/
structure SearchData where
  articles : Option (List Article)
  deriving Repr, DecidableEq

/-- Server-provided error payload as the screen consumes it: a JSON object
that may or may not carry a `message` field (`response.error?.message`). -/
structure ServerPayload where
  message : Option String
  deriving Repr, DecidableEq

/-- The screen reads `response.error?.message`: when the error field holds
the server payload this is its optional `message` property; when it holds
the transport error message string, a string has no `message` property, so
the read yields `undefined`. -/
def errMessageOpt (e : ServerPayload ⊕ String) : Option String :=
  match e with
  | Sum.inl p => p.message
  | Sum.inr _ => none

/-- Component-local state of `NewsPage` (one field per `useState` hook).
`addedArticles` embeds the JS `Set` of article keys (membership is what the
component consumes); `isAdding` embeds the JS object keyed by article key,
where the spread `{ ...isAdding, [k]: b }` overrides the binding for `k`. -/
structure ScreenState where
  query : String
  category : String
  language : String
  articles : List Article
  loading : Bool
  error : String
  categories : List String
  addedArticles : List (Option String)
  activeWorkspace : Option Workspace
  isAdding : List (Option String × Bool)
  successMessage : String
  deriving Repr, DecidableEq

/-- The article key used by the screen: `article.url || article.title`. -/
def articleKey (a : Article) : Option String :=
  jsOr a.url a.title

/-- `new Set([...addedArticles, articleKey])`: membership-preserving insert
(a JS Set keeps one copy of each element). -/
def insertKey (ks : List (Option String)) (k : Option String) :
    List (Option String) :=
  if k ∈ ks then ks else ks ++ [k]

/-- The object spread `{ ...isAdding, [k]: b }`: a map extensionally equal
to the old one except that `k` is now bound to `b`; embedded by prepending
the new binding, with lookup taking the first match. -/
def setFlag (m : List (Option String × Bool)) (k : Option String) (b : Bool) :
    List (Option String × Bool) :=
  (k, b) :: m

/-- `isAdding[articleKey]` read as a boolean (an absent property is falsy). -/
def lookupFlag (m : List (Option String × Bool)) (k : Option String) : Bool :=
  match m.lookup k with
  | some b => b
  | none => false

/-- The state after lines 47-49 of `handleSearch`: `setLoading(true)`,
`setError("")`, `setArticles([])` — the in-flight state while the search
request is outstanding. -/
def searchInFlight (s : ScreenState) : ScreenState :=
  { s with loading := true, error := "", articles := [] }

/-- Big-step embedding of `handleSearch`: from the pre-state and the settled
outcome of the `searchNews` call to the post-state, paired with the request
body sent (`none` on the validation path, where no call is issued).

The two throwing accesses of the success branch are embedded structurally:
when `response.data` is `undefined` (`.resolved none`) the read
`response.data.articles` throws before `setArticles` runs, and when
`data.articles` is `undefined` the read `response.data.articles.length`
throws after `setArticles([])`; both throws land in the catch block, which
sets the generic message.  The finally block clears `loading` on every
path that issued a request. -/
def handleSearch (s : ScreenState)
    (outcome : CallOutcome (Option SearchData) ServerPayload) :
    ScreenState × Option SearchRequest :=
  if jsTrim s.query = "" then
    ({ s with error := "Please enter a search query" }, none)
  else
    let req := searchNewsBody s.query (jsOrNull s.category) s.language 20
    let s1 := searchInFlight s
    let response := searchNews s.query (jsOrNull s.category) s.language 20 outcome
    let s2 :=
      match response with
      | .success dataOpt =>
        match dataOpt with
        | none =>
          { s1 with error := "An error occurred while fetching news. Please try again." }
        | some data =>
          match data.articles with
          | none =>
            { s1 with articles := [],
                      error := "An error occurred while fetching news. Please try again." }
          | some arts =>
            if arts.length = 0 then
              { s1 with articles := arts,
                        error := "No news articles found. Try a different search query." }
            else
              { s1 with articles := arts }
      | .failure e =>
        { s1 with error := orElseStr (errMessageOpt e) "Failed to fetch news articles" }
    ({ s2 with loading := false }, some req)

/-- The normalized payload `handleAddToWorkspace` builds (lines 104-112):
each text field defaulted with `||`, `content` falling back first to the
description, `source` to "Unknown", and `publishedAt` to the current
timestamp `now` (`new Date().toISOString()`), with the active workspace
name attached. -/
def mkAddPayload (a : Article) (now : String) (wsName : String) : AddPayload :=
  { title := orElseStr a.title ""
    description := orElseStr a.description ""
    content := orElseStr a.content (orElseStr a.description "")
    url := orElseStr a.url ""
    source := orElseStr a.source "Unknown"
    publishedAt := orElseStr a.publishedAt now
    workspace_name := wsName }

/-- Big-step embedding of `handleAddToWorkspace`: from the pre-state, the
article, the current timestamp and the settled outcome of the
`addNewsToWorkspace` call to the post-state, paired with the payload sent
(`none` on the no-workspace guard, where no call is issued).

The `setTimeout` that clears the success message 3 seconds later is a
separate deferred event and is not part of this step; the catch block of
the source is unreachable here because `addNewsToWorkspace` never throws
and the try body performs no other throwing access.  The finally block
clears the pending flag for the article key on every path that issued a
request. -/
def handleAddToWorkspace (s : ScreenState) (article : Article) (now : String)
    (outcome : CallOutcome Unit ServerPayload) :
    ScreenState × Option AddPayload :=
  match s.activeWorkspace with
  | none =>
    ({ s with
        error := "Please select a workspace first. Go to dashboard and select a workspace.",
        successMessage := "" }, none)
  | some ws =>
    let key := articleKey article
    let s1 := { s with isAdding := setFlag s.isAdding key true,
                       error := "", successMessage := "" }
    let payload := mkAddPayload article now ws.name
    let response := addNewsToWorkspace payload outcome
    let s2 :=
      match response with
      | .success _ =>
        { s1 with addedArticles := insertKey s1.addedArticles key,
                  successMessage :=
                    "\"" ++ jsStr article.title ++ "\" added to " ++ ws.name ++ " workspace!",
                  error := "" }
      | .failure e =>
        { s1 with error := orElseStr (errMessageOpt e) "Failed to add article to workspace",
                  successMessage := "" }
    ({ s2 with isAdding := setFlag s2.isAdding key false }, some payload)

/-- The `disabled` expression of the add button in the render (line 283):
`isAdded || isAddingArticle || !activeWorkspace`. -/
def addButtonDisabled (s : ScreenState) (a : Article) : Bool :=
  decide (articleKey a ∈ s.addedArticles) ||
    lookupFlag s.isAdding (articleKey a) || s.activeWorkspace.isNone

/-! ## Sample values for concrete witnesses -/

/-- A concrete workspace value. -/
def wsMain : Workspace := { name := "Research" }

/-- A concrete article with every field present. -/
def sampleArticle : Article :=
  { title := some "Climate report", description := some "A report",
    content := some "Body", url := some "https://a",
    source := some "Reuters", publishedAt := some "2026-01-02" }

/-- A concrete screen state with a non-blank query and an active workspace. -/
def baseState : ScreenState :=
  { query := "climate", category := "", language := "en", articles := [],
    loading := false, error := "", categories := [], addedArticles := [],
    activeWorkspace := some wsMain, isAdding := [], successMessage := "" }

/-! ## Helper lemmas -/

/-- Membership in the added set is preserved by inserting any key. -/
theorem mem_insertKey_of_mem {ks : List (Option String)} {k x : Option String}
    (h : x ∈ ks) : x ∈ insertKey ks k := by
  unfold insertKey
  split
  · exact h
  · exact List.mem_append_left _ h

/-- The search handler never touches the added set. -/
theorem handleSearch_addedArticles (s : ScreenState)
    (o : CallOutcome (Option SearchData) ServerPayload) :
    (handleSearch s o).1.addedArticles = s.addedArticles := by
  by_cases hq : jsTrim s.query = ""
  · simp [handleSearch, hq]
  · cases o with
    | rejected e => simp [handleSearch, hq, searchNews, searchInFlight]
    | resolved d =>
      cases d with
      | none => simp [handleSearch, hq, searchNews, searchInFlight]
      | some sd =>
        cases sd with
        | mk artsOpt =>
          cases artsOpt with
          | none => simp [handleSearch, hq, searchNews, searchInFlight]
          | some l =>
            by_cases hl : l.length = 0 <;>
              simp [handleSearch, hq, hl, searchNews, searchInFlight]

/-- The add handler only ever grows the added set. -/
theorem handleAdd_added_monotone (s : ScreenState) (b : Article) (now : String)
    (o : CallOutcome Unit ServerPayload) {k : Option String}
    (h : k ∈ s.addedArticles) :
    k ∈ (handleAddToWorkspace s b now o).1.addedArticles := by
  unfold handleAddToWorkspace
  split
  · exact h
  · cases o with
    | resolved d =>
      show k ∈ insertKey s.addedArticles (articleKey b)
      exact mem_insertKey_of_mem h
    | rejected e =>
      show k ∈ s.addedArticles
      exact h

/-! ## Theorems -/

/-- C3: every invocation of the three News Client operations returns, for
every backend outcome, a value of the uniform shape prescribed by the spec:
`{success: true, data}` on resolution and `{success: false, error}` on
rejection, the error being the server-provided response payload when
present and otherwise the transport error message.  Totality of the three
Lean functions embeds the fact that the try/catch never lets an exception
escape to the caller. -/
theorem newsClient_uniform_result {α ε : Type} (q : String) (c : Option String)
    (l : String) (n : Nat) (a : AddPayload) (o : CallOutcome α ε) :
    searchNews q c l n o = specUniformResult o ∧
    getNewsCategories o = specUniformResult o ∧
    addNewsToWorkspace a o = specUniformResult o := by
  cases o with
  | resolved d => exact ⟨rfl, rfl, rfl⟩
  | rejected e =>
    cases h : e.response <;>
      simp [searchNews, getNewsCategories, addNewsToWorkspace,
        specUniformResult, axiosErrPayload, h]

/-- C4: when the query is empty after trimming, submitting the search form
sets the fixed validation message and issues no backend call; the resulting
state differs from the pre-state only in the error message. -/
theorem search_empty_query_validation (s : ScreenState)
    (o : CallOutcome (Option SearchData) ServerPayload)
    (h : jsTrim s.query = "") :
    handleSearch s o = ({ s with error := "Please enter a search query" }, none) := by
  simp [handleSearch, h]

/-- Witness for C4 at a concrete state whose query is whitespace only. -/
theorem search_empty_query_validation_witness :
    jsTrim ({ baseState with query := " " } : ScreenState).query = "" ∧
    handleSearch { baseState with query := " " } (.resolved none) =
      ({ baseState with query := " ", error := "Please enter a search query" }, none) :=
  ⟨by decide, search_empty_query_validation _ _ (by decide)⟩

/-- C8: with no active workspace, the add action shows the fixed warning,
clears the success message, and issues no backend call; every other state
field, the added set and the pending map included, is unchanged. -/
theorem add_no_workspace_guard (s : ScreenState) (a : Article) (now : String)
    (o : CallOutcome Unit ServerPayload) (h : s.activeWorkspace = none) :
    handleAddToWorkspace s a now o =
      ({ s with
          error := "Please select a workspace first. Go to dashboard and select a workspace.",
          successMessage := "" }, none) := by
  simp [handleAddToWorkspace, h]

/-- Witness for C8 at a concrete state with no workspace selected. -/
theorem add_no_workspace_guard_witness :
    ({ baseState with activeWorkspace := none } : ScreenState).activeWorkspace = none ∧
    handleAddToWorkspace { baseState with activeWorkspace := none } sampleArticle
        "2026-01-01" (.resolved ()) =
      ({ baseState with
          activeWorkspace := none,
          error := "Please select a workspace first. Go to dashboard and select a workspace.",
          successMessage := "" }, none) :=
  ⟨rfl, add_no_workspace_guard _ _ _ _ rfl⟩

/-- C6: every submission that passes validation issues the request from the
in-flight state, whose loading flag is set, and the loading flag of the
settled state is false for every outcome of the call — resolution with any
data shape (the throwing shapes included) as well as rejection. -/
theorem search_loading_cleared (s : ScreenState)
    (o : CallOutcome (Option SearchData) ServerPayload)
    (h : ¬ jsTrim s.query = "") :
    (searchInFlight s).loading = true ∧
    (handleSearch s o).1.loading = false ∧
    (handleSearch s o).2 =
      some (searchNewsBody s.query (jsOrNull s.category) s.language 20) := by
  refine ⟨rfl, ?_, ?_⟩ <;> simp [handleSearch, h]

/-- Witness for C6 at a concrete state and a rejected call. -/
theorem search_loading_cleared_witness :
    ¬ (jsTrim baseState.query = "") ∧
    (searchInFlight baseState).loading = true ∧
    (handleSearch baseState
        (.rejected { response := none, message := "network down" })).1.loading = false ∧
    (handleSearch baseState
        (.rejected { response := none, message := "network down" })).2 =
      some (searchNewsBody "climate" none "en" 20) :=
  ⟨by decide, rfl,
   (search_loading_cleared baseState
     (.rejected { response := none, message := "network down" }) (by decide)).2.1,
   (search_loading_cleared baseState
     (.rejected { response := none, message := "network down" }) (by decide)).2.2⟩

/-- C7: for a search that succeeds with a well-formed article list, the
settled article list is exactly the received list in the order received;
the error is the fixed no-results message when the list is empty and stays
cleared when it is not. -/
theorem search_results_rendering (s : ScreenState) (arts : List Article)
    (h : ¬ jsTrim s.query = "") :
    (handleSearch s (.resolved (some { articles := some arts }))).1.articles = arts ∧
    (handleSearch s (.resolved (some { articles := some arts }))).1.error =
      (if arts.length = 0 then
        "No news articles found. Try a different search query."
      else "") := by
  by_cases hl : arts.length = 0 <;>
    simp [handleSearch, h, hl, searchNews, searchInFlight]

/-- Witness for C7 on a one-article result and on an empty result. -/
theorem search_results_rendering_witness :
    ¬ (jsTrim baseState.query = "") ∧
    (handleSearch baseState
        (.resolved (some { articles := some [sampleArticle] }))).1.articles = [sampleArticle] ∧
    (handleSearch baseState
        (.resolved (some { articles := some [sampleArticle] }))).1.error = "" ∧
    (handleSearch baseState (.resolved (some { articles := some [] }))).1.error =
      "No news articles found. Try a different search query." :=
  ⟨by decide,
   (search_results_rendering baseState [sampleArticle] (by decide)).1,
   (search_results_rendering baseState [sampleArticle] (by decide)).2,
   (search_results_rendering baseState [] (by decide)).2⟩

/-- C10: when a successful search response lacks the articles array (data
absent, or articles absent in the data), the handler recovers locally: the
throwing access lands in the catch block, the article list is empty, the
error is the generic fetch message, and the loading flag is cleared. -/
theorem search_malformed_data_safe (s : ScreenState)
    (h : ¬ jsTrim s.query = "") :
    ((handleSearch s (.resolved none)).1.articles = [] ∧
     (handleSearch s (.resolved none)).1.error =
       "An error occurred while fetching news. Please try again." ∧
     (handleSearch s (.resolved none)).1.loading = false) ∧
    ((handleSearch s (.resolved (some { articles := none }))).1.articles = [] ∧
     (handleSearch s (.resolved (some { articles := none }))).1.error =
       "An error occurred while fetching news. Please try again." ∧
     (handleSearch s (.resolved (some { articles := none }))).1.loading = false) := by
  refine ⟨⟨?_, ?_, ?_⟩, ⟨?_, ?_, ?_⟩⟩ <;>
    simp [handleSearch, h, searchNews, searchInFlight]

/-- Witness for C10 at a concrete state, for both malformed shapes. -/
theorem search_malformed_data_safe_witness :
    ¬ (jsTrim baseState.query = "") ∧
    (handleSearch baseState (.resolved none)).1.error =
      "An error occurred while fetching news. Please try again." ∧
    (handleSearch baseState (.resolved (some { articles := none }))).1.articles = [] :=
  ⟨by decide,
   (search_malformed_data_safe baseState (by decide)).1.2.1,
   (search_malformed_data_safe baseState (by decide)).2.1⟩

/-- C5: with an active workspace, after the add action settles the pending
flag of the article key reads false on both the success and the failure
path, and the added set is the insert of the key exactly on success while
it is unchanged on failure. -/
theorem add_added_set_pending (s : ScreenState) (a : Article) (now : String)
    (o : CallOutcome Unit ServerPayload) (ws : Workspace)
    (h : s.activeWorkspace = some ws) :
    lookupFlag (handleAddToWorkspace s a now o).1.isAdding (articleKey a) = false ∧
    (handleAddToWorkspace s a now o).1.addedArticles =
      (match o with
        | .resolved _ => insertKey s.addedArticles (articleKey a)
        | .rejected _ => s.addedArticles) := by
  cases o <;>
    simp [handleAddToWorkspace, h, addNewsToWorkspace, lookupFlag, setFlag,
      List.lookup]

/-- Witness for C5 on a successful and on a failed add. -/
theorem add_added_set_pending_witness :
    baseState.activeWorkspace = some wsMain ∧
    lookupFlag (handleAddToWorkspace baseState sampleArticle "2026-01-01"
        (.resolved ())).1.isAdding (articleKey sampleArticle) = false ∧
    (handleAddToWorkspace baseState sampleArticle "2026-01-01"
        (.resolved ())).1.addedArticles =
      insertKey baseState.addedArticles (articleKey sampleArticle) ∧
    (handleAddToWorkspace baseState sampleArticle "2026-01-01"
        (.rejected { response := some { message := some "duplicate entry" },
                     message := "http 400" })).1.addedArticles =
      baseState.addedArticles :=
  ⟨rfl,
   (add_added_set_pending baseState sampleArticle "2026-01-01" (.resolved ())
     wsMain rfl).1,
   (add_added_set_pending baseState sampleArticle "2026-01-01" (.resolved ())
     wsMain rfl).2,
   (add_added_set_pending baseState sampleArticle "2026-01-01"
     (.rejected { response := some { message := some "duplicate entry" },
                  message := "http 400" }) wsMain rfl).2⟩

/-- C1 counterexample: a search that succeeds with zero articles sets the
no-results error message but leaves a previously shown success message in
place, so both messages are non-empty at the same time, refuting the
claimed global exclusivity on the zero-result path of handleSearch. -/
theorem search_keeps_success_message_counterexample :
    ¬ ((handleSearch { baseState with successMessage := "added!" }
          (.resolved (some { articles := some [] }))).1.error = "" ∨
       (handleSearch { baseState with successMessage := "added!" }
          (.resolved (some { articles := some [] }))).1.successMessage = "") := by
  decide

/-- C1 (amended): the mutual-clearing invariant holds for the add action —
after any handleAddToWorkspace step at most one of the error and the
success message is non-empty.  handleSearch, by contrast, sets the error
without clearing the success message (see the counterexample), so the
claimed exclusivity fails on the empty-query, zero-result and
search-failure paths. -/
theorem add_messages_mutually_exclusive (s : ScreenState) (a : Article)
    (now : String) (o : CallOutcome Unit ServerPayload) :
    (handleAddToWorkspace s a now o).1.error = "" ∨
    (handleAddToWorkspace s a now o).1.successMessage = "" := by
  cases hw : s.activeWorkspace with
  | none => right; simp [handleAddToWorkspace, hw]
  | some ws =>
    cases o with
    | resolved d => left; simp [handleAddToWorkspace, hw, addNewsToWorkspace]
    | rejected e => right; simp [handleAddToWorkspace, hw, addNewsToWorkspace]

/-- C2 counterexample: for an article whose content is missing but whose
description is present, the payload sent carries the description as its
content, not the empty string the claim prescribes for every missing text
field. -/
theorem add_payload_content_counterexample :
    ((handleAddToWorkspace baseState
        { title := some "t", description := some "d", content := none,
          url := some "u", source := none, publishedAt := none }
        "2026-01-01" (.resolved ())).2.map (fun p => p.content)) = some "d" ∧
    ¬ (some "d" = some ("" : String)) :=
  ⟨rfl, by decide⟩

/-- C2 (amended): with an active workspace the add action sends exactly the
normalized payload: missing title, description and url default to the
empty string, missing content falls back first to the description and then
to the empty string, missing source defaults to "Unknown", missing
publishedAt defaults to the current timestamp, and the active workspace
name is attached as workspace_name. -/
theorem add_payload_normalized (s : ScreenState) (a : Article) (now : String)
    (o : CallOutcome Unit ServerPayload) (ws : Workspace)
    (h : s.activeWorkspace = some ws) :
    (handleAddToWorkspace s a now o).2 =
      some { title := orElseStr a.title ""
             description := orElseStr a.description ""
             content := orElseStr a.content (orElseStr a.description "")
             url := orElseStr a.url ""
             source := orElseStr a.source "Unknown"
             publishedAt := orElseStr a.publishedAt now
             workspace_name := ws.name } := by
  cases o <;> simp [handleAddToWorkspace, h, mkAddPayload, addNewsToWorkspace]

/-- Witness for C2 (amended) on an article with several missing fields. -/
theorem add_payload_normalized_witness :
    baseState.activeWorkspace = some wsMain ∧
    (handleAddToWorkspace baseState
        { title := none, description := some "d", content := none,
          url := none, source := none, publishedAt := none }
        "2026-01-01" (.resolved ())).2 =
      some { title := "", description := "d", content := "d", url := "",
             source := "Unknown", publishedAt := "2026-01-01",
             workspace_name := "Research" } :=
  ⟨rfl,
   add_payload_normalized baseState
     { title := none, description := some "d", content := none,
       url := none, source := none, publishedAt := none }
     "2026-01-01" (.resolved ()) wsMain rfl⟩

/-- C9: once the key of an article is in the added set, the add button for
that article renders disabled, and the key stays in the added set across
every further screen operation (search steps do not touch the set and add
steps only grow it), so the add action for that article cannot be invoked
again for the rest of the session. -/
theorem added_key_action_disabled (s : ScreenState) (a : Article)
    (h : articleKey a ∈ s.addedArticles) :
    addButtonDisabled s a = true ∧
    (∀ o, articleKey a ∈ (handleSearch s o).1.addedArticles) ∧
    (∀ b now o2, articleKey a ∈ (handleAddToWorkspace s b now o2).1.addedArticles) := by
  refine ⟨?_, ?_, ?_⟩
  · simp [addButtonDisabled, h]
  · intro o
    rw [handleSearch_addedArticles]
    exact h
  · intro b now o2
    exact handleAdd_added_monotone s b now o2 h

/-- Witness for C9 at a state that already contains the sample article key. -/
theorem added_key_action_disabled_witness :
    articleKey sampleArticle ∈
      ({ baseState with addedArticles := [some "https://a"] } : ScreenState).addedArticles ∧
    addButtonDisabled { baseState with addedArticles := [some "https://a"] }
      sampleArticle = true ∧
    articleKey sampleArticle ∈
      (handleSearch { baseState with addedArticles := [some "https://a"] }
        (.resolved none)).1.addedArticles ∧
    articleKey sampleArticle ∈
      (handleAddToWorkspace { baseState with addedArticles := [some "https://a"] }
        sampleArticle "2026-01-01" (.resolved ())).1.addedArticles :=
  ⟨by decide,
   (added_key_action_disabled _ sampleArticle (by decide)).1,
   (added_key_action_disabled _ sampleArticle (by decide)).2.1 (.resolved none),
   (added_key_action_disabled _ sampleArticle (by decide)).2.2 sampleArticle
     "2026-01-01" (.resolved ())⟩
